import Mathlib

/-!
Verification of the loan-application decision pipeline
(Oxford-Summit-Loan-Application).

The notebook of the repository (`Main.ipynb`) contains the orchestration shell
`deterministic_agent_pipeline`, the report template `synthesize_report`, the
sample application `test_app` and the recorded pipeline outputs.  The evaluator
tools (`tools/check_fraud.py`, `tools/check_sla.py`,
`tools/check_acceptability_threshold.py`), the recommendation synthesizer
(`agents/recommendation_agent.py`) and the data model (`data_model.py`) are
imported by the notebook but their files are not part of the sources; those
components are modelled from the specification, faithful to its words and to
the recorded outputs.
-/

namespace LoanApp

/-- Modelled from the spec: `data_model.py` (not among the sources) defines
`LoanApplicationJourney`, the immutable snapshot of the facts of one loan
application (spec section 3, ApplicationRecord).  Timestamps are optional strings,
`processing_steps` is an insertion-ordered mapping from step name to elapsed
duration in minutes, monetary fields are amounts in a single currency unit. -/
structure LoanApplicationJourney where
  application_id : String
  submitted_time : Option String
  reviewed_time : Option String
  approved_time : Option String
  rejected_time : Option String
  processing_steps : List (String × Int)
  flagged_for_fraud : Bool
  monthly_income : Int
  monthly_costs : Int
  requested_amount : Int
  monthly_debt : Int

/-! ## Fraud evaluator -/

/-- Modelled from the spec: a fraud rule (spec section 4.1) has an identifier,
a positive weight contributed to the cumulative risk score when it triggers,
and a predicate on the application record. -/
structure FraudRule where
  id : String
  weight : ℚ
  pred : LoanApplicationJourney → Bool

/-- Fraud verdict record, with the fields visible in the recorded pipeline
output of `Main.ipynb` (flagged, label, risk_score, triggered_rules,
explanation). -/
structure FraudVerdict where
  flagged : Bool
  label : String
  risk_score : ℚ
  triggered_rules : List String
  explanation : String
  deriving DecidableEq

/-- Modelled from the spec: `tools/check_fraud.py` (not among the sources).
Applies the ordered, fixed rule set: each triggered rule contributes its
weight to `risk_score` and appends its identifier to `triggered_rules`;
`flagged = risk_score > 0` (spec section 4.1); the label distinguishes
"No fraud indicators detected" from "Fraud indicators: <list>". -/
def check_fraud (rules : List FraudRule) (app : LoanApplicationJourney) : FraudVerdict :=
  let trig := rules.filter (fun rule => rule.pred app)
  let score : ℚ := (trig.map (fun rule => rule.weight)).sum
  { flagged := decide (0 < score)
    label := if trig.isEmpty then "No fraud indicators detected"
             else "Fraud indicators: " ++ String.intercalate ", " (trig.map (fun rule => rule.id))
    risk_score := score
    triggered_rules := trig.map (fun rule => rule.id)
    explanation := if trig.isEmpty then "No indicators present"
                   else "Fraud rules triggered on the application record." }

/-- Modelled from the spec: rule on the externally-supplied prior fraud flag
(spec section 4.1: "mismatch between `flagged_for_fraud` and derived risk
signals"). -/
def prior_flag_rule : FraudRule :=
  ⟨"prior_fraud_flag", 1, fun app => app.flagged_for_fraud⟩

/-- Modelled from the spec: rule on an anomalous ratio between
`requested_amount` and `monthly_income` (spec section 4.1); the cutoff is a
configuration choice, here requested amount above ten times monthly income. -/
def income_ratio_rule : FraudRule :=
  ⟨"anomalous_income_ratio", 1, fun app => decide (10 * app.monthly_income < app.requested_amount)⟩

/-- Modelled from the spec: the fixed, ordered fraud rule set used by the
pipeline run recorded in `Main.ipynb` (which triggered no rules on the sample
application). -/
def fraud_rules : List FraudRule := [prior_flag_rule, income_ratio_rule]

/-! ## SLA evaluator -/

/-- SLA verdict record, with the fields visible in the recorded pipeline
output of `Main.ipynb` (violated, label, violated_steps, explanation). -/
structure SLAVerdict where
  violated : Bool
  label : String
  violated_steps : List String
  explanation : String
  deriving DecidableEq

/-- Modelled from the spec: one step of `processing_steps` violates the SLA
iff its configured limit exists and its duration strictly exceeds it; steps
absent from the limits mapping never violate (spec section 4.2). -/
def step_violates (limits : List (String × Int)) (p : String × Int) : Bool :=
  match limits.lookup p.1 with
  | some l => decide (l < p.2)
  | none => false

/-- Modelled from the spec: `tools/check_sla.py` (not among the sources).
`violated_steps` is the ordered sequence of step names whose duration strictly
exceeds their configured limit, in the iteration order of `processing_steps`;
`violated` is true iff that sequence is nonempty; the label encodes full
compliance or the comma-joined violating steps (spec section 4.2, and the
recorded label "SLA violations in: KYC"). -/
def check_sla (app : LoanApplicationJourney) (limits : List (String × Int)) : SLAVerdict :=
  let vs := (app.processing_steps.filter (step_violates limits)).map Prod.fst
  { violated := !vs.isEmpty
    label := if vs.isEmpty then "All steps within SLA"
             else "SLA violations in: " ++ String.intercalate ", " vs
    violated_steps := vs
    explanation := if vs.isEmpty then "All steps within SLA."
                   else "Steps exceeded configured SLA limits." }

/-! ## Interest-rate evaluator -/

/-- The three acceptability levels of the rate verdict. -/
inductive RateLevel
  | approve
  | review
  | reject
  deriving DecidableEq

/-- Rate-band thresholds, external configuration (spec section 6): rates below
`b1` approve, rates in [b1, b2) need review, rates at or above `b2` reject. -/
structure RateBands where
  b1 : ℚ
  b2 : ℚ
  deriving DecidableEq

/-- Rate verdict record, with the fields visible in the recorded pipeline
output of `Main.ipynb` (level, label). -/
structure RateVerdict where
  level : RateLevel
  label : String
  deriving DecidableEq

/-- Modelled from the spec: inclusive-low/exclusive-high banding
(spec section 4.3): rate < b1 → approve, b1 ≤ rate < b2 → review,
rate ≥ b2 → reject. -/
def classify_rate (bands : RateBands) (rate : ℚ) : RateLevel :=
  if rate < bands.b1 then .approve
  else if rate < bands.b2 then .review
  else .reject

/-- Modelled from the spec: the label accompanying each level
("Excellent"/"Acceptable"/"Too high", spec section 4.3; the recorded output
shows "Excellent" for the approve level). -/
def rate_label : RateLevel → String
  | .approve => "Excellent"
  | .review => "Acceptable"
  | .reject => "Too high"

/-- Modelled from the spec: `tools/check_acceptability_threshold.py` (not
among the sources).  Classifies the fetched reference rate against the
configured bands into a level and its label (spec section 4.3). -/
def check_acceptability_threshold (bands : RateBands) (rate : ℚ) : RateVerdict :=
  let lv := classify_rate bands rate
  ⟨lv, rate_label lv⟩

/-! ## Recommendation synthesizer -/

/-- The outcome enum of a Recommendation (spec section 3). -/
inductive Outcome
  | APPROVE
  | REJECT
  | REVIEW
  deriving DecidableEq

/-- The output of the synthesizer: an outcome and a rationale built from the three
verdicts (spec section 3). -/
structure Recommendation where
  outcome : Outcome
  rationale : String
  deriving DecidableEq

/-- Modelled from the spec: `agents/recommendation_agent.py` (not among the
sources) defines `get_recommendation`, the fixed short-circuiting precedence
policy of spec section 4.4: fraud flagged → REJECT; else SLA violated →
REJECT; else rate reject → REJECT; else rate review → REVIEW; else APPROVE.
The rationale cites the deciding check and names the label of every verdict. -/
def get_recommendation (fraud : FraudVerdict) (sla : SLAVerdict) (rate : RateVerdict) :
    Recommendation :=
  let labels := fraud.label ++ "; " ++ sla.label ++ "; " ++ rate.label
  if fraud.flagged then
    ⟨.REJECT, "Reject the loan application: fraud indicators detected (" ++ labels ++ ")"⟩
  else if sla.violated then
    ⟨.REJECT, "Reject the loan application: SLA violations in "
        ++ String.intercalate ", " sla.violated_steps ++ " (" ++ labels ++ ")"⟩
  else if rate.level = .reject then
    ⟨.REJECT, "Reject the loan application: unacceptable interest rate (" ++ labels ++ ")"⟩
  else if rate.level = .review then
    ⟨.REVIEW, "Review the loan application: borderline interest rate requires human judgment ("
        ++ labels ++ ")"⟩
  else
    ⟨.APPROVE, "Approve the loan application (" ++ labels ++ ")"⟩

/-! ## Report formatter (`synthesize_report`, from `Main.ipynb`) -/

/-- The report context dictionary: `synthesize_report` reads the keys
`to`, `recommendation`, `fraud_result`, `sla_result`, `interest_rate_result`
with `context.get`, so each may be absent (`none`).  The verdict values are
interpolated into an f-string, hence modelled as their rendered strings. -/
structure ReportContext where
  to_recipient : Option String
  recommendation : Option String
  fraud_result : Option String
  sla_result : Option String
  interest_rate_result : Option String
  deriving DecidableEq

/-- Python f-string interpolation of a possibly absent value:
`context.get(key)` yields `None`, which prints as "None". -/
def pyOptStr : Option String → String
  | some s => s
  | none => "None"

/-- Embedding of `synthesize_report` from `Main.ipynb`: the f-string template
with the configured defaults for the recipient (Daria Zahaleanu) and the
recommendation (No recommendation), and plain `context.get` with default
None for the three verdicts. -/
def synthesize_report (context : ReportContext) : String :=
  "📋 Loan Application System Summary\nDear "
    ++ context.to_recipient.getD "Daria Zahaleanu"
    ++ ",\nRecommendation: "
    ++ context.recommendation.getD "No recommendation"
    ++ "\nFraud Result: "
    ++ pyOptStr context.fraud_result
    ++ "\nSLA Result: "
    ++ pyOptStr context.sla_result
    ++ "\nInterest Rate Result: "
    ++ pyOptStr context.interest_rate_result
    ++ "\n\nRegards,\nTeam 5 - Loan Application Agent\n"

/-! ## Rendering verdicts as Python dict strings

The pipeline interpolates the verdict dictionaries into the report with
`str()`; these renders mirror the dict strings visible in the recorded
output of `Main.ipynb`. -/

/-- Python `str` of a boolean. -/
def pyBool : Bool → String
  | true => "True"
  | false => "False"

/-- Python `str` of a list of strings (single-quoted elements). -/
def pyStrList (xs : List String) : String :=
  "[" ++ String.intercalate ", " (xs.map (fun s => "\x27" ++ s ++ "\x27")) ++ "]"

/-- Render of a fraud verdict dict, with the single-quoted keys flagged,
label, triggered_rules and explanation as in the recorded output. -/
def render_fraud (v : FraudVerdict) : String :=
  "\x7b\x27flagged\x27: " ++ pyBool v.flagged
    ++ ", \x27label\x27: \x27" ++ v.label
    ++ "\x27, \x27triggered_rules\x27: " ++ pyStrList v.triggered_rules
    ++ ", \x27explanation\x27: \x27" ++ v.explanation ++ "\x27\x7d"

/-- Render of an SLA verdict dict, with the single-quoted keys violated,
label, violated_steps and explanation as in the recorded output. -/
def render_sla (v : SLAVerdict) : String :=
  "\x7b\x27violated\x27: " ++ pyBool v.violated
    ++ ", \x27label\x27: \x27" ++ v.label
    ++ "\x27, \x27violated_steps\x27: " ++ pyStrList v.violated_steps
    ++ ", \x27explanation\x27: \x27" ++ v.explanation ++ "\x27\x7d"

/-- Render of a rate verdict dict, with the single-quoted keys level and
label as in the recorded output. -/
def render_rate (v : RateVerdict) : String :=
  "\x7b\x27level\x27: \x27"
    ++ (match v.level with
        | .approve => "approve"
        | .review => "review"
        | .reject => "reject")
    ++ "\x27, \x27label\x27: \x27" ++ v.label ++ "\x27\x7d"

/-! ## The deterministic pipeline (`deterministic_agent_pipeline`, from `Main.ipynb`) -/

/-- The `final_context` dictionary built by the pipeline: exactly the four
keys `recommendation`, `fraud_result`, `sla_result`, `interest_rate_result`. -/
structure FinalContext where
  recommendation : Recommendation
  fraud_result : FraudVerdict
  sla_result : SLAVerdict
  interest_rate_result : RateVerdict
  deriving DecidableEq

/-- One tool invocation performed by the pipeline, recording the argument the
tool received. -/
inductive CallEvent
  | fraudCall (arg : LoanApplicationJourney)
  | slaCall (arg : LoanApplicationJourney)
  | rateCall (arg : LoanApplicationJourney)
  | reportCall (arg : FinalContext)

/-- Embedding of `deterministic_agent_pipeline` from `Main.ipynb`,
parameterized by the four tools it invokes (`fraud_agent.tools[0]`,
`sla_agent.tools[0]`, `interest_rate_agent.tools[0]`,
`report_agent.tools[0]`).  Besides the returned report string it records the
trace of tool invocations, one event per call site in the source, each with
the exact argument passed. -/
def deterministic_agent_pipeline
    (fraudTool : LoanApplicationJourney → FraudVerdict)
    (slaTool : LoanApplicationJourney → SLAVerdict)
    (rateTool : LoanApplicationJourney → RateVerdict)
    (reportTool : FinalContext → String)
    (test_app : LoanApplicationJourney) : String × List CallEvent :=
  let fraud_result := fraudTool test_app
  let sla_result := slaTool test_app
  let interest_rate_result := rateTool test_app
  let recommendation := get_recommendation fraud_result sla_result interest_rate_result
  let final_context : FinalContext :=
    { recommendation := recommendation
      fraud_result := fraud_result
      sla_result := sla_result
      interest_rate_result := interest_rate_result }
  let report_result := reportTool final_context
  (report_result,
    [.fraudCall test_app, .slaCall test_app, .rateCall test_app, .reportCall final_context])

/-! ## Concrete configuration and sample data of the recorded run -/

/-- The sample application `test_app` from `Main.ipynb` (scenario A). -/
def test_app : LoanApplicationJourney :=
  { application_id := "APP-LOCAL-001"
    submitted_time := some "2025-06-01T09:00:00"
    reviewed_time := some "2025-06-01T09:30:00"
    approved_time := some "2025-06-01T10:00:00"
    rejected_time := none
    processing_steps := [("KYC", 72), ("CreditCheck", 50), ("FinalApproval", 35)]
    flagged_for_fraud := false
    monthly_income := 50000
    monthly_costs := 1000
    requested_amount := 25000
    monthly_debt := 400 }

/-- Modelled from the spec: the SLA limits configuration of scenario A,
`{KYC: 60, ...}` — only the KYC limit is given; other steps are
unconstrained and never violate (spec sections 4.2 and 8). -/
def sla_limits : List (String × Int) := [("KYC", 60)]

/-- Modelled from the spec: rate-band thresholds with 0.045 inside the
approve band (spec section 8, scenario A); the exact cutoffs are external
configuration, here b1 = 0.05 and b2 = 0.08. -/
def rate_bands : RateBands := ⟨mkRat 1 20, mkRat 2 25⟩

/-- The reference rate 0.045 of the recorded run (from `^TNX`, recorded as
`rate=0.045` in the approve band). -/
def reference_rate : ℚ := mkRat 9 200

/-- The report tool of the pipeline: renders the four context values and
fills the report template (the recorded report interpolates the
recommendation text and the three verdict dicts exactly like
`synthesize_report`). -/
def report_tool (ctx : FinalContext) : String :=
  synthesize_report
    { to_recipient := none
      recommendation := some ctx.recommendation.rationale
      fraud_result := some (render_fraud ctx.fraud_result)
      sla_result := some (render_sla ctx.sla_result)
      interest_rate_result := some (render_rate ctx.interest_rate_result) }

/-- The recorded scenario-A pipeline run: the concrete evaluators applied to
`test_app` with the scenario configuration. -/
def scenarioA_run : String × List CallEvent :=
  deterministic_agent_pipeline
    (check_fraud fraud_rules)
    (check_sla · sla_limits)
    (fun _ => check_acceptability_threshold rate_bands reference_rate)
    report_tool
    test_app

/-- The scenario-A report text. -/
def scenarioA_report : String := scenarioA_run.1

/-! ## Substring containment -/

/-- The pattern `pat` occurs as a contiguous substring of `s`. -/
def containsStr (s pat : String) : Prop :=
  pat.data <:+: s.data

instance (s pat : String) : Decidable (containsStr s pat) :=
  List.decidableInfix pat.data s.data

/-! ## Helper lemmas -/

theorem containsStr_refl (s : String) : containsStr s s := List.infix_refl _

theorem containsStr_mono_left {a pat : String} (b : String) (h : containsStr a pat) :
    containsStr (a ++ b) pat :=
  h.trans ⟨[], b.data, by simp [String.data_append]⟩

theorem containsStr_mono_right (a : String) {b pat : String} (h : containsStr b pat) :
    containsStr (a ++ b) pat :=
  h.trans ⟨a.data, [], by simp [String.data_append]⟩

theorem containsStr_of_eq (s a pat b : String) (h : s = a ++ pat ++ b) : containsStr s pat := by
  subst h
  exact ⟨a.data, b.data, by simp [String.data_append, List.append_assoc]⟩

theorem str_append_assoc (a b c : String) : (a ++ b) ++ c = a ++ (b ++ c) :=
  String.ext (by simp [String.data_append, List.append_assoc])

theorem step_violates_iff (limits : List (String × Int)) (p : String × Int) :
    step_violates limits p = true ↔ ∃ l, limits.lookup p.1 = some l ∧ l < p.2 := by
  unfold step_violates
  cases h : limits.lookup p.1 <;> simp [h]

theorem bnot_isEmpty_iff {α : Type} (l : List α) : (!l.isEmpty) = true ↔ l ≠ [] := by
  cases l <;> simp

theorem sum_weights_nonneg (l : List FraudRule) (h : ∀ r ∈ l, 0 ≤ r.weight) :
    0 ≤ (l.map (fun r => r.weight)).sum := by
  apply List.sum_nonneg
  intro x hx
  obtain ⟨r, hr, rfl⟩ := List.mem_map.1 hx
  exact h r hr

theorem triggered_score_mono (rules : List FraudRule) (a b : LoanApplicationJourney)
    (hw : ∀ r ∈ rules, 0 ≤ r.weight)
    (hab : ∀ r ∈ rules, r.pred a = true → r.pred b = true) :
    ((rules.filter (fun r => r.pred a)).map (fun r => r.weight)).sum ≤
      ((rules.filter (fun r => r.pred b)).map (fun r => r.weight)).sum := by
  induction rules with
  | nil => simp
  | cons r rs ih =>
    have hw' : ∀ x ∈ rs, 0 ≤ x.weight := fun x hx => hw x (List.mem_cons_of_mem _ hx)
    have hab' : ∀ x ∈ rs, x.pred a = true → x.pred b = true :=
      fun x hx => hab x (List.mem_cons_of_mem _ hx)
    have ihh := ih hw' hab'
    by_cases hpa : r.pred a = true
    · have hpb := hab r (List.mem_cons_self r rs) hpa
      simp only [List.filter_cons, hpa, hpb, if_true, List.map_cons, List.sum_cons]
      linarith
    · have hpa' : r.pred a = false := by
        cases hra : r.pred a
        · rfl
        · exact absurd hra hpa
      by_cases hpb : r.pred b = true
      · simp only [List.filter_cons, hpa', hpb, Bool.false_eq_true, if_false, if_true,
          List.map_cons, List.sum_cons]
        have hwr : 0 ≤ r.weight := hw r (List.mem_cons_self r rs)
        linarith
      · have hpb' : r.pred b = false := by
          cases hrb : r.pred b
          · rfl
          · exact absurd hrb hpb
        simp only [List.filter_cons, hpa', hpb', Bool.false_eq_true, if_false]
        exact ihh

theorem triggered_score_pos (l : List FraudRule) (hpos : ∀ r ∈ l, 0 < r.weight)
    (hne : l ≠ []) : 0 < (l.map (fun r => r.weight)).sum := by
  cases l with
  | nil => exact absurd rfl hne
  | cons r rs =>
    simp only [List.map_cons, List.sum_cons]
    have h1 : 0 < r.weight := hpos r (List.mem_cons_self r rs)
    have h2 : 0 ≤ (rs.map (fun r => r.weight)).sum :=
      sum_weights_nonneg rs (fun x hx => le_of_lt (hpos x (List.mem_cons_of_mem _ hx)))
    linarith

theorem dear_containment (name : String) :
    containsStr ("📋 Loan Application System Summary\nDear " ++ name ++ ",\nRecommendation: ")
      ("Dear " ++ name ++ ",") := by
  apply containsStr_of_eq _ "📋 Loan Application System Summary\n" _ "\nRecommendation: "
  rw [show ("📋 Loan Application System Summary\nDear " : String) =
      "📋 Loan Application System Summary\n" ++ "Dear " from rfl,
    show (",\nRecommendation: " : String) = "," ++ "\nRecommendation: " from rfl]
  simp only [str_append_assoc]

/-! ## Claim theorems -/

set_option maxRecDepth 400000

/-- C1: the recommendation synthesizer follows the fixed precedence policy on
its three verdict inputs: for every triple of verdicts, if `fraud.flagged` is
true the outcome is REJECT regardless of the SLA and rate verdicts; otherwise
if `sla.violated` is true the outcome is REJECT regardless of the rate
verdict; otherwise if `rate.level` is reject the outcome is REJECT; otherwise
if `rate.level` is review the outcome is REVIEW; otherwise the outcome is
APPROVE. -/
theorem C1_recommendation_precedence (fraud : FraudVerdict) (sla : SLAVerdict)
    (rate : RateVerdict) :
    (fraud.flagged = true → (get_recommendation fraud sla rate).outcome = .REJECT)
    ∧ (fraud.flagged = false → sla.violated = true →
        (get_recommendation fraud sla rate).outcome = .REJECT)
    ∧ (fraud.flagged = false → sla.violated = false → rate.level = .reject →
        (get_recommendation fraud sla rate).outcome = .REJECT)
    ∧ (fraud.flagged = false → sla.violated = false → rate.level = .review →
        (get_recommendation fraud sla rate).outcome = .REVIEW)
    ∧ (fraud.flagged = false → sla.violated = false → rate.level = .approve →
        (get_recommendation fraud sla rate).outcome = .APPROVE) := by
  refine ⟨fun h1 => ?_, fun h1 h2 => ?_, fun h1 h2 h3 => ?_, fun h1 h2 h3 => ?_,
    fun h1 h2 h3 => ?_⟩ <;> simp_all [get_recommendation]

/-- Witness for C1: a fraud-flagged verdict yields REJECT at a concrete
input. -/
theorem C1_recommendation_precedence_witness :
    (get_recommendation ⟨true, "Fraud indicators: prior_fraud_flag", 1, ["prior_fraud_flag"], "x"⟩
      ⟨false, "All steps within SLA", [], "All steps within SLA."⟩
      ⟨.approve, "Excellent"⟩).outcome = .REJECT :=
  (C1_recommendation_precedence _ _ _).1 rfl

/-- C2: end-to-end scenario A: for the sample application record (income
50000, costs 1000, debt 400, requested 25000, steps KYC:72, CreditCheck:50,
FinalApproval:35), the SLA limit KYC:60 and the reference rate 0.045 in the
approve band, the pipeline yields `fraud.flagged = false`,
`sla.violated = true` with only KYC violating, `rate.level = approve`, and
the final Recommendation outcome REJECT. -/
theorem C2_scenarioA_end_to_end :
    (check_fraud fraud_rules test_app).flagged = false
    ∧ (check_sla test_app sla_limits).violated = true
    ∧ (check_sla test_app sla_limits).violated_steps = ["KYC"]
    ∧ (check_acceptability_threshold rate_bands reference_rate).level = .approve
    ∧ (get_recommendation (check_fraud fraud_rules test_app) (check_sla test_app sla_limits)
        (check_acceptability_threshold rate_bands reference_rate)).outcome = .REJECT := by
  refine ⟨?_, ?_, ?_, ?_, ?_⟩ <;> decide

/-- C3: for every application record and SLA limits mapping, the SLA
evaluator sets `violated` to true iff the duration of at least one step
strictly exceeds its configured limit (steps absent from the limits mapping never
violate), membership in `violated_steps` is exactly having a binding whose
duration strictly exceeds its limit, and `violated_steps` preserves the
iteration order of `processing_steps` (it is a sublist of its keys). -/
theorem C3_sla_characterization (app : LoanApplicationJourney)
    (limits : List (String × Int)) :
    ((check_sla app limits).violated = true ↔
      ∃ p ∈ app.processing_steps, ∃ l, limits.lookup p.1 = some l ∧ l < p.2)
    ∧ (∀ n : String, n ∈ (check_sla app limits).violated_steps ↔
        ∃ d : Int, (n, d) ∈ app.processing_steps ∧ ∃ l, limits.lookup n = some l ∧ l < d)
    ∧ (check_sla app limits).violated_steps.Sublist (app.processing_steps.map Prod.fst) := by
  have hmem : ∀ n : String, n ∈ (check_sla app limits).violated_steps ↔
      ∃ d : Int, (n, d) ∈ app.processing_steps ∧ ∃ l, limits.lookup n = some l ∧ l < d := by
    intro n
    simp only [check_sla, List.mem_map, List.mem_filter]
    constructor
    · rintro ⟨⟨a, b⟩, ⟨hm, hviol⟩, rfl⟩
      obtain ⟨l, hl, hlt⟩ := (step_violates_iff limits (a, b)).1 hviol
      exact ⟨b, hm, l, hl, hlt⟩
    · rintro ⟨d, hm, l, hl, hlt⟩
      exact ⟨(n, d), ⟨hm, (step_violates_iff limits (n, d)).2 ⟨l, hl, hlt⟩⟩, rfl⟩
  refine ⟨?_, hmem, ?_⟩
  · rw [show (check_sla app limits).violated =
        !(check_sla app limits).violated_steps.isEmpty from rfl, bnot_isEmpty_iff,
      Ne, List.eq_nil_iff_forall_not_mem]
    push_neg
    constructor
    · rintro ⟨n, hn⟩
      obtain ⟨d, hd, l, hl, hlt⟩ := (hmem n).1 hn
      exact ⟨(n, d), hd, l, hl, hlt⟩
    · rintro ⟨⟨n, d⟩, hd, l, hl, hlt⟩
      exact ⟨n, (hmem n).2 ⟨d, hd, l, hl, hlt⟩⟩
  · exact (List.filter_sublist _).map Prod.fst

/-- Witness for C3: the characterization instantiated at the recorded sample
data, where the KYC step (duration 72, limit 60) violates. -/
theorem C3_sla_characterization_witness :
    "KYC" ∈ (check_sla test_app sla_limits).violated_steps ∧
    (72 : Int) > 60 :=
  ⟨((C3_sla_characterization test_app sla_limits).2.1 "KYC").2
      ⟨72, by decide, 60, by decide, by decide⟩,
    by decide⟩

/-- C4: the recommendation synthesizer is a deterministic pure function of
the three verdicts: two calls on the same inputs return the same
Recommendation, and the outcome is always one of APPROVE, REJECT, REVIEW. -/
theorem C4_synthesizer_deterministic_total (fraud : FraudVerdict) (sla : SLAVerdict)
    (rate : RateVerdict) :
    get_recommendation fraud sla rate = get_recommendation fraud sla rate
    ∧ ((get_recommendation fraud sla rate).outcome = .APPROVE
       ∨ (get_recommendation fraud sla rate).outcome = .REJECT
       ∨ (get_recommendation fraud sla rate).outcome = .REVIEW) := by
  refine ⟨rfl, ?_⟩
  cases (get_recommendation fraud sla rate).outcome
  · exact .inl rfl
  · exact .inr (.inl rfl)
  · exact .inr (.inr rfl)

/-- Witness for C4 at concrete verdicts. -/
theorem C4_synthesizer_deterministic_total_witness :
    (get_recommendation ⟨false, "No fraud indicators detected", 0, [], "x"⟩
        ⟨false, "All steps within SLA", [], "y"⟩ ⟨.approve, "Excellent"⟩).outcome = .APPROVE
    ∨ (get_recommendation ⟨false, "No fraud indicators detected", 0, [], "x"⟩
        ⟨false, "All steps within SLA", [], "y"⟩ ⟨.approve, "Excellent"⟩).outcome = .REJECT
    ∨ (get_recommendation ⟨false, "No fraud indicators detected", 0, [], "x"⟩
        ⟨false, "All steps within SLA", [], "y"⟩ ⟨.approve, "Excellent"⟩).outcome = .REVIEW :=
  (C4_synthesizer_deterministic_total _ _ _).2

/-- C5: for every rule set with positive weights, the fraud `risk_score`
of the evaluator is monotonic non-decreasing in the triggered rules (a record
triggering a subset of the rules triggered by another scores no higher), `flagged` is true
iff `risk_score > 0` iff at least one rule triggers, and a record triggering
no rules yields `flagged = false`, `risk_score = 0` and an empty
`triggered_rules` list. -/
theorem C5_fraud_monotone_flag (rules : List FraudRule)
    (hw : ∀ r ∈ rules, 0 < r.weight) :
    (∀ a b : LoanApplicationJourney,
        (∀ r ∈ rules, r.pred a = true → r.pred b = true) →
        (check_fraud rules a).risk_score ≤ (check_fraud rules b).risk_score)
    ∧ (∀ a : LoanApplicationJourney,
        ((check_fraud rules a).flagged = true ↔ 0 < (check_fraud rules a).risk_score))
    ∧ (∀ a : LoanApplicationJourney,
        ((check_fraud rules a).flagged = true ↔ (check_fraud rules a).triggered_rules ≠ []))
    ∧ (∀ a : LoanApplicationJourney, (∀ r ∈ rules, r.pred a = false) →
        (check_fraud rules a).flagged = false ∧ (check_fraud rules a).risk_score = 0
          ∧ (check_fraud rules a).triggered_rules = []) := by
  have hscore : ∀ a : LoanApplicationJourney, (check_fraud rules a).risk_score =
      ((rules.filter (fun r => r.pred a)).map (fun r => r.weight)).sum := fun _ => rfl
  have hflag : ∀ a : LoanApplicationJourney, (check_fraud rules a).flagged =
      decide (0 < (check_fraud rules a).risk_score) := fun _ => rfl
  refine ⟨?_, ?_, ?_, ?_⟩
  · intro a b hab
    rw [hscore, hscore]
    exact triggered_score_mono rules a b (fun r hr => le_of_lt (hw r hr)) hab
  · intro a
    rw [hflag]
    simp
  · intro a
    rw [hflag]
    simp only [decide_eq_true_eq]
    constructor
    · intro hpos hnil
      have hfil : rules.filter (fun r => r.pred a) = [] := by
        have hrw : (check_fraud rules a).triggered_rules =
            (rules.filter (fun r => r.pred a)).map (fun r => r.id) := rfl
        rw [hrw] at hnil
        exact List.map_eq_nil_iff.1 hnil
      rw [hscore, hfil] at hpos
      simp at hpos
    · intro hne
      rw [hscore]
      apply triggered_score_pos
      · intro r hr
        exact hw r (List.mem_of_mem_filter hr)
      · intro hfil
        apply hne
        have hrw : (check_fraud rules a).triggered_rules =
            (rules.filter (fun r => r.pred a)).map (fun r => r.id) := rfl
        rw [hrw, hfil]
        rfl
  · intro a ha
    have hfil : rules.filter (fun r => r.pred a) = [] :=
      List.filter_eq_nil_iff.2 (fun r hr => by simp [ha r hr])
    refine ⟨?_, ?_, ?_⟩
    · rw [hflag, hscore, hfil]
      simp
    · rw [hscore, hfil]
      rfl
    · show (rules.filter (fun r => r.pred a)).map (fun r => r.id) = []
      rw [hfil, List.map_nil]

/-- Witness for C5: the concrete rule set has positive weights, and on the
sample application (which triggers no rules) the evaluator yields
`flagged = false`, `risk_score = 0` and no triggered rules. -/
theorem C5_fraud_monotone_flag_witness :
    (check_fraud fraud_rules test_app).flagged = false
    ∧ (check_fraud fraud_rules test_app).risk_score = 0
    ∧ (check_fraud fraud_rules test_app).triggered_rules = [] :=
  (C5_fraud_monotone_flag fraud_rules (by decide)).2.2.2 test_app (by decide)

/-- C6: for every band configuration with b1 ≤ b2, the banding of the rate
evaluator partitions the rate values into three contiguous, non-overlapping,
exhaustive intervals with inclusive-low/exclusive-high boundaries:
level = approve iff rate < b1, level = review iff b1 ≤ rate < b2, and
level = reject iff b2 ≤ rate; hence every rate value, including boundary
values, resolves deterministically to exactly one level. -/
theorem C6_rate_banding_partition (bands : RateBands) (rate : ℚ)
    (h : bands.b1 ≤ bands.b2) :
    ((check_acceptability_threshold bands rate).level = .approve ↔ rate < bands.b1)
    ∧ ((check_acceptability_threshold bands rate).level = .review ↔
        bands.b1 ≤ rate ∧ rate < bands.b2)
    ∧ ((check_acceptability_threshold bands rate).level = .reject ↔ bands.b2 ≤ rate) := by
  unfold check_acceptability_threshold classify_rate
  by_cases h1 : rate < bands.b1
  · refine ⟨?_, ?_, ?_⟩ <;> simp [h1] <;> linarith
  · by_cases h2 : rate < bands.b2
    · refine ⟨?_, ?_, ?_⟩ <;> simp [h1, h2] <;> linarith
    · refine ⟨?_, ?_, ?_⟩ <;> simp [h1, h2] <;> linarith

/-- Witness for C6: the scenario bands satisfy b1 ≤ b2 and classify the
recorded reference rate 0.045 as approve, since 0.045 < 0.05. -/
theorem C6_rate_banding_partition_witness :
    rate_bands.b1 ≤ rate_bands.b2
    ∧ ((check_acceptability_threshold rate_bands reference_rate).level = .approve ↔
        reference_rate < rate_bands.b1) :=
  ⟨by decide, (C6_rate_banding_partition rate_bands reference_rate (by decide)).1⟩

/-- C7 counterexample: with every verdict absent from the context, the report
formatter `synthesize_report` does not fail — it returns a complete report in
which the missing recommendation is replaced by the default text
"No recommendation" and each missing verdict is rendered as "None". -/
theorem C7_missing_verdict_counterexample :
    synthesize_report ⟨none, none, none, none, none⟩ =
      "📋 Loan Application System Summary\nDear Daria Zahaleanu,\nRecommendation: No recommendation\nFraud Result: None\nSLA Result: None\nInterest Rate Result: None\n\nRegards,\nTeam 5 - Loan Application Agent\n"
    ∧ containsStr (synthesize_report ⟨none, none, none, none, none⟩) "No recommendation" := by
  constructor
  · rfl
  · decide

/-- C7 amended: if a verdict is absent, the report formatter does not fail;
it substitutes a default instead — a missing recommendation is rendered as
the default text "No recommendation", and a missing verdict is rendered
exactly as the string "None", indistinguishable from a verdict whose rendered
value is "None"; a missing check is thus silently rendered, not rejected. -/
theorem C7_formatter_substitutes_defaults (cto cf cs cr : Option String) :
    containsStr (synthesize_report ⟨cto, none, cf, cs, cr⟩) "No recommendation"
    ∧ (∀ crec : Option String,
        synthesize_report ⟨cto, crec, none, none, none⟩ =
          synthesize_report ⟨cto, crec, some "None", some "None", some "None"⟩) := by
  constructor
  · show containsStr
      ("📋 Loan Application System Summary\nDear " ++ cto.getD "Daria Zahaleanu"
        ++ ",\nRecommendation: " ++ "No recommendation"
        ++ "\nFraud Result: " ++ pyOptStr cf
        ++ "\nSLA Result: " ++ pyOptStr cs
        ++ "\nInterest Rate Result: " ++ pyOptStr cr
        ++ "\n\nRegards,\nTeam 5 - Loan Application Agent\n") "No recommendation"
    exact containsStr_mono_left _ (containsStr_mono_left _ (containsStr_mono_left _
      (containsStr_mono_left _ (containsStr_mono_left _ (containsStr_mono_left _
        (containsStr_mono_left _ (containsStr_mono_right _ (containsStr_refl _))))))))
  · intro crec
    rfl

/-- C8: the report text produced for end-to-end scenario A contains the
string "Reject", the string "KYC", and the label "Excellent" of the rate
verdict: the output of the formatter surfaces the labels of all three
verdicts. -/
theorem C8_report_surfaces_verdicts :
    containsStr scenarioA_report "Reject"
    ∧ containsStr scenarioA_report "KYC"
    ∧ containsStr scenarioA_report "Excellent" := by
  refine ⟨?_, ?_, ?_⟩ <;> decide

/-- C9: the report formatter is pure templating: for every recommendation
text, three rendered verdicts and optional recipient, it returns a
fixed-structure multi-line string that contains the header, the
recommendation rationale and the details of each verdict, addressed to the given
recipient when one is provided and otherwise to the configured default
recipient; it is a plain function of its context (no network or file
I/O). -/
theorem C9_formatter_pure_templating (rec f s r : String) :
    (∀ name : String,
        containsStr (synthesize_report ⟨some name, some rec, some f, some s, some r⟩)
          ("Dear " ++ name ++ ","))
    ∧ containsStr (synthesize_report ⟨none, some rec, some f, some s, some r⟩)
        "Dear Daria Zahaleanu,"
    ∧ (∀ cto : Option String,
        containsStr (synthesize_report ⟨cto, some rec, some f, some s, some r⟩)
          "📋 Loan Application System Summary"
        ∧ containsStr (synthesize_report ⟨cto, some rec, some f, some s, some r⟩) rec
        ∧ containsStr (synthesize_report ⟨cto, some rec, some f, some s, some r⟩) f
        ∧ containsStr (synthesize_report ⟨cto, some rec, some f, some s, some r⟩) s
        ∧ containsStr (synthesize_report ⟨cto, some rec, some f, some s, some r⟩) r) := by
  refine ⟨?_, ?_, ?_⟩
  · intro name
    show containsStr
      ("📋 Loan Application System Summary\nDear " ++ name
        ++ ",\nRecommendation: " ++ rec
        ++ "\nFraud Result: " ++ f
        ++ "\nSLA Result: " ++ s
        ++ "\nInterest Rate Result: " ++ r
        ++ "\n\nRegards,\nTeam 5 - Loan Application Agent\n") ("Dear " ++ name ++ ",")
    exact containsStr_mono_left _ (containsStr_mono_left _ (containsStr_mono_left _
      (containsStr_mono_left _ (containsStr_mono_left _ (containsStr_mono_left _
        (containsStr_mono_left _ (containsStr_mono_left _ (dear_containment name))))))))
  · show containsStr
      ("📋 Loan Application System Summary\nDear " ++ "Daria Zahaleanu"
        ++ ",\nRecommendation: " ++ rec
        ++ "\nFraud Result: " ++ f
        ++ "\nSLA Result: " ++ s
        ++ "\nInterest Rate Result: " ++ r
        ++ "\n\nRegards,\nTeam 5 - Loan Application Agent\n") "Dear Daria Zahaleanu,"
    refine containsStr_mono_left _ (containsStr_mono_left _ (containsStr_mono_left _
      (containsStr_mono_left _ (containsStr_mono_left _ (containsStr_mono_left _
        (containsStr_mono_left _ (containsStr_mono_left _ ?_)))))))
    decide
  · intro cto
    refine ⟨?_, ?_, ?_, ?_, ?_⟩ <;>
      show containsStr
        ("📋 Loan Application System Summary\nDear " ++ cto.getD "Daria Zahaleanu"
          ++ ",\nRecommendation: " ++ rec
          ++ "\nFraud Result: " ++ f
          ++ "\nSLA Result: " ++ s
          ++ "\nInterest Rate Result: " ++ r
          ++ "\n\nRegards,\nTeam 5 - Loan Application Agent\n") _
    · refine containsStr_mono_left _ (containsStr_mono_left _ (containsStr_mono_left _
        (containsStr_mono_left _ (containsStr_mono_left _ (containsStr_mono_left _
          (containsStr_mono_left _ (containsStr_mono_left _ (containsStr_mono_left _
            (containsStr_mono_left _ ?_)))))))))
      decide
    · exact containsStr_mono_left _ (containsStr_mono_left _ (containsStr_mono_left _
        (containsStr_mono_left _ (containsStr_mono_left _ (containsStr_mono_left _
          (containsStr_mono_left _ (containsStr_mono_right _ (containsStr_refl _))))))))
    · exact containsStr_mono_left _ (containsStr_mono_left _ (containsStr_mono_left _
        (containsStr_mono_left _ (containsStr_mono_left _
          (containsStr_mono_right _ (containsStr_refl _))))))
    · exact containsStr_mono_left _ (containsStr_mono_left _ (containsStr_mono_left _
        (containsStr_mono_right _ (containsStr_refl _))))
    · exact containsStr_mono_left _ (containsStr_mono_right _ (containsStr_refl _))

/-- Witness for C9 at concrete strings: the report addressed to a concrete
recipient contains the greeting line for that recipient. -/
theorem C9_formatter_pure_templating_witness :
    containsStr (synthesize_report
      ⟨some "Jane Doe", some "Approve the loan application", some "fr", some "sl", some "ir"⟩)
      ("Dear " ++ "Jane Doe" ++ ",") :=
  (C9_formatter_pure_templating "Approve the loan application" "fr" "sl" "ir").1 "Jane Doe"

/-- C10: for every choice of the four tools and every application record,
`deterministic_agent_pipeline` invokes each of the three evaluator tools
exactly once, passing the same unmodified record to each, builds the report
context from exactly the four values recommendation / fraud_result /
sla_result / interest_rate_result, invokes the report tool exactly once on
that context, and returns the output string of the report tool unchanged (the
record, an immutable value, is never modified). -/
theorem C10_pipeline_frame
    (fraudTool : LoanApplicationJourney → FraudVerdict)
    (slaTool : LoanApplicationJourney → SLAVerdict)
    (rateTool : LoanApplicationJourney → RateVerdict)
    (reportTool : FinalContext → String)
    (app : LoanApplicationJourney) :
    deterministic_agent_pipeline fraudTool slaTool rateTool reportTool app =
      (reportTool
        { recommendation := get_recommendation (fraudTool app) (slaTool app) (rateTool app)
          fraud_result := fraudTool app
          sla_result := slaTool app
          interest_rate_result := rateTool app },
       [CallEvent.fraudCall app, CallEvent.slaCall app, CallEvent.rateCall app,
        CallEvent.reportCall
          { recommendation := get_recommendation (fraudTool app) (slaTool app) (rateTool app)
            fraud_result := fraudTool app
            sla_result := slaTool app
            interest_rate_result := rateTool app }]) :=
  rfl

/-- Witness for C10: the trace of the scenario-A run is exactly one call per tool,
each evaluator receiving the unmodified sample application. -/
theorem C10_pipeline_frame_witness :
    scenarioA_run.2 =
      [CallEvent.fraudCall test_app, CallEvent.slaCall test_app, CallEvent.rateCall test_app,
       CallEvent.reportCall
         { recommendation := get_recommendation (check_fraud fraud_rules test_app)
             (check_sla test_app sla_limits)
             (check_acceptability_threshold rate_bands reference_rate)
           fraud_result := check_fraud fraud_rules test_app
           sla_result := check_sla test_app sla_limits
           interest_rate_result := check_acceptability_threshold rate_bands reference_rate }] :=
  congrArg Prod.snd (C10_pipeline_frame (check_fraud fraud_rules) (check_sla · sla_limits)
    (fun _ => check_acceptability_threshold rate_bands reference_rate) report_tool test_app)

end LoanApp
